import Mathlib

/-
Verification of the pricing/totals computation core of the Budget_Project
repository (renovation-quote calculator).

Shallow embedding conventions:
- Python floats are modelled as exact rationals; the built-in two-decimal
  rounding round(x, 2) is modelled by round2 below, an idealised
  round-half-up to the nearest cent.  None of the properties proved here
  depends on the tie-breaking direction of Python rounding.
- Python dicts used by the static price tables are modelled as association
  lists; dict.get(k, d) becomes (List.lookup k).getD d, and a KeyError
  caught by an enclosing try/except becomes the corresponding default
  branch.  Textual dict entries such as unidad and descripcion are omitted:
  no verified property mentions them.
- Fallible code paths (a Python function returning None or an empty list,
  or raising a pydantic ValidationError / ValueError) are modelled with
  explicit result types.
-/

/- The Batteries rational primitives are irreducible by default, which
blocks the decision procedures used for concrete evaluations below. -/
unseal Rat.add Rat.mul Rat.inv Rat.sub Rat.ofScientific

namespace BudgetProject

/-! ## Rounding (model of Python round) -/

/-- Round half-up to the nearest integer, as an idealisation of Python
round() applied to the float intermediates of the pricing engine. -/
def roundQ (x : ℚ) : ℤ := ⌊x + 1 / 2⌋

/-- Model of Python round(x, 2): round to two decimal places. -/
def round2 (x : ℚ) : ℚ := (roundQ (x * 100) : ℚ) / 100

/-- Model of Python round(x, 1): round to one decimal place, used by the
comparator for the savings percentage. -/
def round1 (x : ℚ) : ℚ := (roundQ (x * 10) : ℚ) / 10

theorem roundQ_mono {a b : ℚ} (h : a ≤ b) : roundQ a ≤ roundQ b :=
  Int.floor_mono (by linarith)

theorem round2_mono {a b : ℚ} (h : a ≤ b) : round2 a ≤ round2 b := by
  have hf : roundQ (a * 100) ≤ roundQ (b * 100) := roundQ_mono (by linarith)
  have hf2 : (roundQ (a * 100) : ℚ) ≤ (roundQ (b * 100) : ℚ) := by exact_mod_cast hf
  unfold round2
  linarith

theorem floor_half_q : ⌊(1 : ℚ) / 2⌋ = 0 := by
  rw [Int.floor_eq_zero_iff]
  rw [Set.mem_Ico]
  norm_num

theorem roundQ_intCast (n : ℤ) : roundQ (n : ℚ) = n := by
  unfold roundQ
  rw [Int.floor_int_add, floor_half_q, add_zero]

theorem round2_zero : round2 0 = 0 := by
  have h : roundQ (0 : ℚ) = 0 := by
    have := roundQ_intCast 0
    simpa using this
  unfold round2
  rw [zero_mul, h]
  norm_num

theorem round2_nonneg {a : ℚ} (h : 0 ≤ a) : 0 ≤ round2 a := by
  have := round2_mono h
  rw [round2_zero] at this
  exact this

theorem round2_intCast_div (n : ℤ) : round2 ((n : ℚ) / 100) = (n : ℚ) / 100 := by
  unfold round2
  rw [div_mul_cancel₀ _ (by norm_num : (100 : ℚ) ≠ 0), roundQ_intCast]

theorem round2_round2 (x : ℚ) : round2 (round2 x) = round2 x :=
  round2_intCast_div _

/-! ## Domain enums (src/src/domain/enums) -/

/-- QualityLevel enum from quality_level.py: basico, estandar, premium. -/
inductive QualityLevel where
  | basico
  | estandar
  | premium
deriving DecidableEq, Repr

/-- The .value string of a QualityLevel member. -/
def QualityLevel.value : QualityLevel → String
  | .basico => "basico"
  | .estandar => "estandar"
  | .premium => "premium"

/-- WorkCategory enum from work_category.py, exactly its five members:
albanileria, fontaneria, electricidad, cocina, carpinteria.  The
WorkCategory.PAQUETE attribute that pricing_service.py reads when it
builds a package line does not exist on this enum, so that read raises
AttributeError (see crear_partidas_paquete below). -/
inductive WorkCategory where
  | albanileria
  | fontaneria
  | electricidad
  | cocina
  | carpinteria
deriving DecidableEq, Repr

/-- The .value string of a WorkCategory member. -/
def WorkCategory.value : WorkCategory → String
  | .albanileria => "albanileria"
  | .fontaneria => "fontaneria"
  | .electricidad => "electricidad"
  | .cocina => "cocina"
  | .carpinteria => "carpinteria"

/-! ## Static price tables (src/src/config/pricing_data.py)

Each partida dict is modelled by its numeric quality-tier entries
(basico, estandar, premium); each package price dict by its numeric keys
(precio_m2, or precio_base / m2_referencia / precio_m2_adicional). -/

/-- Numeric entries of one price dict: quality tier (or price-shape key)
to amount in euros. -/
abbrev Tiers := List (String × ℚ)

/-- PRICING_DATA: categoria to partida to quality-tier prices. -/
def PRICING_DATA : List (String × List (String × Tiers)) :=
  [ ("albanileria",
      [ ("alicatado_paredes", [("basico", 30), ("estandar", 47.5), ("premium", 80)])
      , ("solado_porcelanico", [("basico", 30), ("estandar", 47.5), ("premium", 80)])
      , ("solado_vinilico", [("basico", 20), ("estandar", 35), ("premium", 52.5)])
      , ("alisado_paredes", [("basico", 13.5), ("estandar", 20), ("premium", 30)])
      , ("pintura", [("basico", 9), ("estandar", 15), ("premium", 30)])
      , ("demolicion", [("basico", 17.5), ("estandar", 17.5), ("premium", 17.5)])
      , ("falso_techo_pladur", [("basico", 22.5), ("estandar", 35), ("premium", 52.5)])
      , ("tabique_pladur", [("basico", 35), ("estandar", 45), ("premium", 60)])
      ])
  , ("fontaneria",
      [ ("plato_ducha", [("basico", 400), ("estandar", 700), ("premium", 1600)])
      , ("mampara", [("basico", 250), ("estandar", 450), ("premium", 900)])
      , ("mueble_lavabo", [("basico", 300), ("estandar", 550), ("premium", 1200)])
      , ("inodoro", [("basico", 200), ("estandar", 400), ("premium", 900)])
      , ("griferia_ducha", [("basico", 80), ("estandar", 180), ("premium", 450)])
      , ("griferia_lavabo", [("basico", 60), ("estandar", 120), ("premium", 300)])
      , ("instalacion_fontaneria", [("basico", 800), ("estandar", 1200), ("premium", 2000)])
      , ("calentador_agua", [("basico", 400), ("estandar", 700), ("premium", 1500)])
      ])
  , ("electricidad",
      [ ("instalacion_completa", [("basico", 3500), ("estandar", 4500), ("premium", 7000)])
      , ("punto_luz", [("basico", 45), ("estandar", 65), ("premium", 100)])
      , ("cuadro_electrico", [("basico", 350), ("estandar", 500), ("premium", 800)])
      , ("toma_corriente", [("basico", 40), ("estandar", 55), ("premium", 85)])
      , ("punto_tv_datos", [("basico", 50), ("estandar", 75), ("premium", 120)])
      ])
  , ("cocina",
      [ ("mobiliario_cocina", [("basico", 2500), ("estandar", 4500), ("premium", 9000)])
      , ("encimera", [("basico", 150), ("estandar", 300), ("premium", 600)])
      , ("electrodomesticos_basicos", [("basico", 1200), ("estandar", 2500), ("premium", 5000)])
      , ("fregadero_griferia", [("basico", 200), ("estandar", 400), ("premium", 800)])
      , ("instalacion_gas", [("basico", 300), ("estandar", 450), ("premium", 650)])
      ])
  , ("carpinteria",
      [ ("puerta_interior", [("basico", 180), ("estandar", 300), ("premium", 550)])
      , ("puerta_entrada", [("basico", 400), ("estandar", 700), ("premium", 1500)])
      , ("ventana_aluminio", [("basico", 250), ("estandar", 400), ("premium", 700)])
      , ("ventana_pvc", [("basico", 300), ("estandar", 500), ("premium", 850)])
      , ("armario_empotrado", [("basico", 350), ("estandar", 550), ("premium", 900)])
      ])
  ]

/-- PACKAGES_DATA, restricted to the precios sub-dicts: paquete to quality
tier to price-shape entries. -/
def PACKAGES_DATA : List (String × List (String × Tiers)) :=
  [ ("bano_completo",
      [ ("basico", [("precio_base", 3500), ("m2_referencia", 5), ("precio_m2_adicional", 350)])
      , ("estandar", [("precio_base", 5500), ("m2_referencia", 5), ("precio_m2_adicional", 500)])
      , ("premium", [("precio_base", 9000), ("m2_referencia", 5), ("precio_m2_adicional", 750)])
      ])
  , ("cocina_completa",
      [ ("basico", [("precio_base", 6000), ("m2_referencia", 8), ("precio_m2_adicional", 400)])
      , ("estandar", [("precio_base", 10000), ("m2_referencia", 8), ("precio_m2_adicional", 600)])
      , ("premium", [("precio_base", 18000), ("m2_referencia", 8), ("precio_m2_adicional", 900)])
      ])
  , ("reforma_integral_vivienda",
      [ ("basico", [("precio_m2", 650)])
      , ("estandar", [("precio_m2", 950)])
      , ("premium", [("precio_m2", 1500)])
      ])
  , ("reforma_integral_local",
      [ ("basico", [("precio_m2", 450)])
      , ("estandar", [("precio_m2", 700)])
      , ("premium", [("precio_m2", 1250)])
      ])
  ]

/-- PRICING_DATA lookup of categoria then partida. -/
def lookupPartida (categoria partida : String) : Option Tiers :=
  (PRICING_DATA.lookup categoria).bind (fun cat => cat.lookup partida)

/-- PACKAGES_DATA lookup of paquete then calidad, reaching the price-shape
dict PACKAGES_DATA[paquete][precios][calidad]. -/
def lookupPrecios (paquete calidad : String) : Option Tiers :=
  (PACKAGES_DATA.lookup paquete).bind (fun pkg => pkg.lookup calidad)

/-- get_precio_partida from pricing_data.py: the nested dict access
PRICING_DATA[categoria][partida][calidad] with every KeyError caught and
turned into 0.0. -/
def get_precio_partida (categoria partida calidad : String) : ℚ :=
  match lookupPartida categoria partida with
  | none => 0
  | some tiers => (tiers.lookup calidad).getD 0

/-- get_precio_paquete from pricing_data.py.  metros = none models the
Python default metros=None.  Shapes: a dict holding precio_m2 is priced as
precio_m2 * (metros or 0); otherwise the price starts from precio_base and,
when metros is truthy and exceeds m2_referencia, adds the extra area times
precio_m2_adicional.  Any KeyError is caught and turned into 0.0. -/
def get_precio_paquete (paquete calidad : String) (metros : Option ℚ) : ℚ :=
  match lookupPrecios paquete calidad with
  | none => 0
  | some precios =>
    match precios.lookup "precio_m2" with
    | some rate => rate * (metros.getD 0)
    | none =>
      match precios.lookup "precio_base" with
      | none => 0
      | some base =>
        match metros with
        | none => base
        | some m =>
          if m ≠ 0 ∧ ((precios.lookup "m2_referencia").getD 0) < m then
            match precios.lookup "m2_referencia" with
            | none => 0
            | some ref => base + (m - ref) * ((precios.lookup "precio_m2_adicional").getD 0)
          else base

/-! ## BudgetItem (src/src/domain/models/budget_item.py)

Only the fields the verified claims mention are kept; the descriptive
string fields (codigo, descripcion, unidad, notas, nombre_paquete,
items_incluidos) are omitted. -/

/-- A budget line (partida). -/
structure BudgetItem where
  categoria : WorkCategory
  cantidad : ℚ
  precio_unitario : ℚ
  calidad : QualityLevel
  es_paquete : Bool
deriving DecidableEq, Repr

/-- Pydantic field constraints of BudgetItem: cantidad gt=0 and
precio_unitario ge=0. -/
def BudgetItem.pydanticOk (i : BudgetItem) : Prop :=
  0 < i.cantidad ∧ 0 ≤ i.precio_unitario

instance (i : BudgetItem) : Decidable i.pydanticOk := by
  unfold BudgetItem.pydanticOk
  infer_instance

/-- BudgetItem.subtotal: round(cantidad * precio_unitario, 2). -/
def BudgetItem.subtotal (i : BudgetItem) : ℚ :=
  round2 (i.cantidad * i.precio_unitario)

/-- BudgetItem.aplicar_markup: returns self unchanged for package lines,
otherwise a copy whose unit price is round(precio * (1 + pct / 100), 2). -/
def BudgetItem.aplicar_markup (i : BudgetItem) (porcentaje : ℚ) : BudgetItem :=
  if i.es_paquete then i
  else { i with precio_unitario := round2 (i.precio_unitario * (1 + porcentaje / 100)) }

/-! ## Budget (src/src/domain/models/budget.py)

The proyecto sub-model is represented by the fields the pricing core
reads: metros_cuadrados, calidad_general and the boolean
puede_iva_reducido (tipo_inmueble.es_vivienda_habitual and
es_vivienda_habitual), from which Project.iva_aplicable derives the VAT
percentage. -/

/-- A budget (presupuesto) together with the project facts the totals
computation reads. -/
structure Budget where
  partidas : List BudgetItem
  descuento_porcentaje : ℚ
  puede_iva_reducido : Bool
  metros_cuadrados : ℚ
  calidad_general : QualityLevel
deriving DecidableEq, Repr

/-- Project.iva_aplicable: 10 with reduced VAT, 21 otherwise; surfaced on
the budget as Budget.iva_porcentaje. -/
def Budget.iva_porcentaje (b : Budget) : ℚ :=
  if b.puede_iva_reducido then 10 else 21

/-- Budget.subtotal: round(sum of partida subtotals, 2). -/
def Budget.subtotal (b : Budget) : ℚ :=
  round2 ((b.partidas.map BudgetItem.subtotal).sum)

/-- Budget.importe_descuento: round(subtotal * (descuento / 100), 2). -/
def Budget.importe_descuento (b : Budget) : ℚ :=
  round2 (b.subtotal * (b.descuento_porcentaje / 100))

/-- Budget.base_imponible: round(subtotal - importe_descuento, 2). -/
def Budget.base_imponible (b : Budget) : ℚ :=
  round2 (b.subtotal - b.importe_descuento)

/-- Budget.base_con_redondeo: round(base_imponible * 1.05, 2). -/
def Budget.base_con_redondeo (b : Budget) : ℚ :=
  round2 (b.base_imponible * 1.05)

/-- Budget.importe_redondeo: round(base_con_redondeo - base_imponible, 2). -/
def Budget.importe_redondeo (b : Budget) : ℚ :=
  round2 (b.base_con_redondeo - b.base_imponible)

/-- Budget.importe_iva: round(base_con_redondeo * (iva / 100), 2). -/
def Budget.importe_iva (b : Budget) : ℚ :=
  round2 (b.base_con_redondeo * (b.iva_porcentaje / 100))

/-- Budget.total: round(base_con_redondeo + importe_iva, 2). -/
def Budget.total (b : Budget) : ℚ :=
  round2 (b.base_con_redondeo + b.importe_iva)

/-- Pydantic constraints of a Budget and its partidas: every line passed
item validation and descuento_porcentaje carries ge=0, le=100. -/
def Budget.pydanticOk (b : Budget) : Prop :=
  (∀ i ∈ b.partidas, i.pydanticOk) ∧
  0 ≤ b.descuento_porcentaje ∧ b.descuento_porcentaje ≤ 100

instance (b : Budget) : Decidable b.pydanticOk := by
  unfold Budget.pydanticOk
  infer_instance

/-! ## PricingService (src/src/application/services/pricing_service.py) -/

/-- The quality-price selection used by PricingService.crear_partida:
partida_data.get(calidad.value, partida_data.get("estandar", 0.0)). -/
def precioSegunCalidad (tiers : Tiers) (calidad : String) : ℚ :=
  match tiers.lookup calidad with
  | some p => p
  | none => (tiers.lookup "estandar").getD 0

/-- Outcome of PricingService.crear_partida: None for an unknown categoria
or partida (logged warning), a pydantic ValidationError raised while
constructing the BudgetItem, or the constructed line. -/
inductive CrearPartidaResult where
  | notFound
  | validationError
  | ok (item : BudgetItem)
deriving DecidableEq, Repr

/-- PricingService.crear_partida: look the partida up in PRICING_DATA,
select the price for the requested quality with estandar fallback, apply
the 15 percent markup when requested, round to cents, then construct the
BudgetItem (which is where pydantic validates cantidad gt=0 and
precio_unitario ge=0). -/
def crear_partida (categoria : WorkCategory) (partida : String) (cantidad : ℚ)
    (calidad : QualityLevel) (aplicar_markup : Bool) : CrearPartidaResult :=
  match PRICING_DATA.lookup categoria.value with
  | none => .notFound
  | some partidas_categoria =>
    match partidas_categoria.lookup partida with
    | none => .notFound
    | some partida_data =>
      let precio_base := precioSegunCalidad partida_data calidad.value
      let precio_final := precio_base * (if aplicar_markup then 1.15 else 1)
      let item : BudgetItem :=
        { categoria := categoria
          cantidad := cantidad
          precio_unitario := round2 precio_final
          calidad := calidad
          es_paquete := false }
      if item.pydanticOk then .ok item else .validationError

/-- Outcome of PricingService.crear_partidas_paquete: the empty list for
an unknown paquete, or the AttributeError raised while constructing the
package BudgetItem. -/
inductive CrearPaqueteResult where
  | empty
  | attributeError
deriving DecidableEq, Repr

/-- PricingService.crear_partidas_paquete: an unknown paquete returns the
empty list after a logged warning.  For a known paquete the source
computes the package price via get_precio_paquete and the included-items
list, and then constructs the BudgetItem with
categoria equal to WorkCategory.PAQUETE; the WorkCategory enum of
work_category.py has no PAQUETE member, so evaluating that argument
raises AttributeError and no package line is ever returned.  The price
and items computations are pure and their results are discarded by the
crash, so the model goes straight to the error outcome. -/
def crear_partidas_paquete (paquete : String) (_calidad : QualityLevel)
    (_metros : ℚ) : CrearPaqueteResult :=
  match PACKAGES_DATA.lookup paquete with
  | none => .empty
  | some _ => .attributeError

/-- The totals dict returned by
PricingService.calcular_totales_con_redondeo (numeric entries; the two
fixed percentage entries are left out). -/
structure Totales where
  subtotal : ℚ
  descuento : ℚ
  base_sin_redondeo : ℚ
  base_con_redondeo : ℚ
  importe_redondeo : ℚ
  iva_importe : ℚ
  total : ℚ
deriving DecidableEq, Repr

/-- PricingService.calcular_iva: round(base * (iva_general / 100), 2) with
the flat configured general rate (settings.iva_general, default 21). -/
def calcular_iva (base_imponible : ℚ) (iva_general : ℚ) : ℚ :=
  round2 (base_imponible * (iva_general / 100))

/-- PricingService.calcular_totales_con_redondeo: reads subtotal, discount
and base from the Budget, reapplies the 5 percent uplift, computes VAT on
the uplifted base via calcular_iva and returns the breakdown dict. -/
def calcular_totales_con_redondeo (b : Budget) (iva_general : ℚ) : Totales :=
  let base_sin_redondeo := b.base_imponible
  let base_con_redondeo := round2 (base_sin_redondeo * 1.05)
  let importe_redondeo := round2 (base_con_redondeo - base_sin_redondeo)
  let iva_importe := calcular_iva base_con_redondeo iva_general
  let total := round2 (base_con_redondeo + iva_importe)
  { subtotal := b.subtotal
    descuento := b.importe_descuento
    base_sin_redondeo := base_sin_redondeo
    base_con_redondeo := base_con_redondeo
    importe_redondeo := importe_redondeo
    iva_importe := iva_importe
    total := total }

/-- PricingService.aplicar_descuento: raises ValueError (modelled none)
unless 0 <= porcentaje <= 100, otherwise stores the value unchanged. -/
def pricing_aplicar_descuento (b : Budget) (porcentaje : ℚ) : Option Budget :=
  if 0 ≤ porcentaje ∧ porcentaje ≤ 100 then
    some { b with descuento_porcentaje := porcentaje }
  else none

/-! ## BudgetService (src/src/application/services/budget_service.py) -/

/-- BudgetService.aplicar_descuento: stores min(max(porcentaje, 0), 100),
clamping instead of rejecting. -/
def budget_aplicar_descuento (b : Budget) (porcentaje : ℚ) : Budget :=
  { b with descuento_porcentaje := min (max porcentaje 0) 100 }

/-- The comparison dict returned by BudgetService.comparar_con_paquete. -/
structure Comparacion where
  precio_actual : ℚ
  precio_paquete : ℚ
  ahorro : ℚ
  ahorro_porcentaje : ℚ
  recomendacion : String
deriving DecidableEq, Repr

/-- BudgetService.comparar_con_paquete: compares the budget subtotal with
the package price for the projects quality and area.  The function only
reads the budget; it returns a fresh dict and mutates nothing. -/
def comparar_con_paquete (b : Budget) (paquete : String) : Comparacion :=
  let precio_actual := b.subtotal
  let precio_paquete :=
    get_precio_paquete paquete b.calidad_general.value (some b.metros_cuadrados)
  let ahorro := precio_actual - precio_paquete
  { precio_actual := precio_actual
    precio_paquete := precio_paquete
    ahorro := ahorro
    ahorro_porcentaje :=
      if 0 < precio_actual then round1 (ahorro / precio_actual * 100) else 0
    recomendacion := if 0 < ahorro then "paquete" else "mantener_actual" }

/-! ## Specification-side definitions

These restate, word for word, the computation chains claimed by the
specification, to be compared with the code-side definitions above. -/

/-- Spec chain step 1: subtotal = round(sum of line subtotals, 2). -/
def spec_subtotal (lineSubtotals : List ℚ) : ℚ :=
  round2 lineSubtotals.sum

/-- Spec chain step 2: discount amount = round(subtotal * discount_pct / 100, 2). -/
def spec_importe_descuento (lineSubtotals : List ℚ) (discount_pct : ℚ) : ℚ :=
  round2 (spec_subtotal lineSubtotals * discount_pct / 100)

/-- Spec chain step 3: taxable base = round(subtotal - discount amount, 2). -/
def spec_base_imponible (lineSubtotals : List ℚ) (discount_pct : ℚ) : ℚ :=
  round2 (spec_subtotal lineSubtotals - spec_importe_descuento lineSubtotals discount_pct)

/-- Spec chain step 4: uplifted base = round(taxable base * 1.05, 2). -/
def spec_base_con_redondeo (lineSubtotals : List ℚ) (discount_pct : ℚ) : ℚ :=
  round2 (spec_base_imponible lineSubtotals discount_pct * 1.05)

/-- Spec chain step 5: surcharge = round(uplifted base - taxable base, 2). -/
def spec_importe_redondeo (lineSubtotals : List ℚ) (discount_pct : ℚ) : ℚ :=
  round2 (spec_base_con_redondeo lineSubtotals discount_pct -
    spec_base_imponible lineSubtotals discount_pct)

/-- Spec chain step 6: tax amount = round(uplifted base * tax_pct / 100, 2). -/
def spec_importe_iva (lineSubtotals : List ℚ) (discount_pct tax_pct : ℚ) : ℚ :=
  round2 (spec_base_con_redondeo lineSubtotals discount_pct * tax_pct / 100)

/-- Spec chain step 7: total = round(uplifted base + tax amount, 2). -/
def spec_total (lineSubtotals : List ℚ) (discount_pct tax_pct : ℚ) : ℚ :=
  round2 (spec_base_con_redondeo lineSubtotals discount_pct +
    spec_importe_iva lineSubtotals discount_pct tax_pct)

/-- Spec comparator: savings = subtotal - package price; savings pct =
round1(savings / subtotal * 100) when subtotal positive, else 0;
recommendation package exactly when savings positive. -/
def spec_comparator (subtotal precio_paquete : ℚ) : Comparacion :=
  let savings := subtotal - precio_paquete
  { precio_actual := subtotal
    precio_paquete := precio_paquete
    ahorro := savings
    ahorro_porcentaje := if 0 < subtotal then round1 (savings / subtotal * 100) else 0
    recomendacion := if 0 < savings then "paquete" else "mantener_actual" }

/-! ## Claim C1 -/

/-- Claim C1: for every Budget the computed totals follow the fixed chain
with every intermediate rounded to two decimals before the next step:
subtotal, discount amount, taxable base, 5 percent uplift
(base_con_redondeo and its surcharge), tax amount on the uplifted base,
and total; and PricingService.calcular_totales_con_redondeo returns the
same chain with the configured general tax rate. -/
theorem c1_totals_chain (b : Budget) (iva_general : ℚ) :
    b.subtotal = spec_subtotal (b.partidas.map BudgetItem.subtotal) ∧
    b.importe_descuento =
      spec_importe_descuento (b.partidas.map BudgetItem.subtotal) b.descuento_porcentaje ∧
    b.base_imponible =
      spec_base_imponible (b.partidas.map BudgetItem.subtotal) b.descuento_porcentaje ∧
    b.base_con_redondeo =
      spec_base_con_redondeo (b.partidas.map BudgetItem.subtotal) b.descuento_porcentaje ∧
    b.importe_redondeo =
      spec_importe_redondeo (b.partidas.map BudgetItem.subtotal) b.descuento_porcentaje ∧
    b.importe_iva =
      spec_importe_iva (b.partidas.map BudgetItem.subtotal) b.descuento_porcentaje
        b.iva_porcentaje ∧
    b.total =
      spec_total (b.partidas.map BudgetItem.subtotal) b.descuento_porcentaje
        b.iva_porcentaje ∧
    calcular_totales_con_redondeo b iva_general =
      { subtotal := spec_subtotal (b.partidas.map BudgetItem.subtotal)
        descuento :=
          spec_importe_descuento (b.partidas.map BudgetItem.subtotal) b.descuento_porcentaje
        base_sin_redondeo :=
          spec_base_imponible (b.partidas.map BudgetItem.subtotal) b.descuento_porcentaje
        base_con_redondeo :=
          spec_base_con_redondeo (b.partidas.map BudgetItem.subtotal) b.descuento_porcentaje
        importe_redondeo :=
          spec_importe_redondeo (b.partidas.map BudgetItem.subtotal) b.descuento_porcentaje
        iva_importe :=
          spec_importe_iva (b.partidas.map BudgetItem.subtotal) b.descuento_porcentaje
            iva_general
        total :=
          spec_total (b.partidas.map BudgetItem.subtotal) b.descuento_porcentaje
            iva_general } := by
  have e1 : b.subtotal = spec_subtotal (b.partidas.map BudgetItem.subtotal) := rfl
  have e2 : b.importe_descuento =
      spec_importe_descuento (b.partidas.map BudgetItem.subtotal) b.descuento_porcentaje := by
    unfold Budget.importe_descuento spec_importe_descuento
    rw [mul_div_assoc, e1]
  have e3 : b.base_imponible =
      spec_base_imponible (b.partidas.map BudgetItem.subtotal) b.descuento_porcentaje := by
    unfold Budget.base_imponible spec_base_imponible
    rw [e1, e2]
  have e4 : b.base_con_redondeo =
      spec_base_con_redondeo (b.partidas.map BudgetItem.subtotal) b.descuento_porcentaje := by
    unfold Budget.base_con_redondeo spec_base_con_redondeo
    rw [e3]
  have e5 : b.importe_redondeo =
      spec_importe_redondeo (b.partidas.map BudgetItem.subtotal) b.descuento_porcentaje := by
    unfold Budget.importe_redondeo spec_importe_redondeo
    rw [e3, e4]
  have e6 : b.importe_iva =
      spec_importe_iva (b.partidas.map BudgetItem.subtotal) b.descuento_porcentaje
        b.iva_porcentaje := by
    unfold Budget.importe_iva spec_importe_iva
    rw [mul_div_assoc, e4]
  have e7 : b.total =
      spec_total (b.partidas.map BudgetItem.subtotal) b.descuento_porcentaje
        b.iva_porcentaje := by
    unfold Budget.total spec_total
    rw [e4, e6]
  refine ⟨e1, e2, e3, e4, e5, e6, e7, ?_⟩
  unfold calcular_totales_con_redondeo calcular_iva
  have s4 : round2 (b.base_imponible * 1.05) =
      spec_base_con_redondeo (b.partidas.map BudgetItem.subtotal) b.descuento_porcentaje := by
    unfold spec_base_con_redondeo
    rw [e3]
  have s6 : round2 (round2 (b.base_imponible * 1.05) * (iva_general / 100)) =
      spec_importe_iva (b.partidas.map BudgetItem.subtotal) b.descuento_porcentaje
        iva_general := by
    unfold spec_importe_iva
    rw [mul_div_assoc, s4]
  simp only [Totales.mk.injEq]
  refine ⟨e1, e2, e3, s4, ?_, s6, ?_⟩
  · unfold spec_importe_redondeo
    rw [s4, e3]
  · unfold spec_total spec_importe_iva
    rw [mul_div_assoc, s4]

/-! ## Claim C7 -/

/-- Claim C7: the items-versus-package comparison returns savings equal to
the pre-tax pre-discount quote subtotal minus the catalog package price,
a savings percentage of round1(savings / subtotal * 100) guarded to 0 for
non-positive subtotal, and recommends the package exactly when savings are
strictly positive; the budget itself is not modified (the embedded
function only reads it). -/
theorem c7_comparator (b : Budget) (paquete : String) :
    comparar_con_paquete b paquete =
      spec_comparator b.subtotal
        (get_precio_paquete paquete b.calidad_general.value (some b.metros_cuadrados)) ∧
    ((comparar_con_paquete b paquete).recomendacion = "paquete" ↔
      0 < (comparar_con_paquete b paquete).ahorro) := by
  constructor
  · rfl
  · show (if 0 < b.subtotal -
        get_precio_paquete paquete b.calidad_general.value (some b.metros_cuadrados) then
        "paquete" else "mantener_actual") = "paquete" ↔
      0 < b.subtotal -
        get_precio_paquete paquete b.calidad_general.value (some b.metros_cuadrados)
    by_cases h : 0 < b.subtotal -
        get_precio_paquete paquete b.calidad_general.value (some b.metros_cuadrados)
    · rw [if_pos h]
      simp [h]
    · rw [if_neg h]
      constructor
      · intro hcontra
        exact absurd hcontra (by decide)
      · intro hlt
        exact absurd hlt h

/-! ## Claim C6 -/

/-- Claim C6: for every Budget satisfying the pydantic field constraints,
the final total is at least the taxable base: the 5 percent uplift and the
tax step never decrease the amount. -/
theorem c6_total_ge_base (b : Budget) (h : b.pydanticOk) :
    b.base_imponible ≤ b.total := by
  obtain ⟨hitems, hd0, hd100⟩ := h
  have hsum0 : 0 ≤ (b.partidas.map BudgetItem.subtotal).sum := by
    apply List.sum_nonneg
    intro x hx
    rw [List.mem_map] at hx
    obtain ⟨i, hi, rfl⟩ := hx
    exact round2_nonneg (mul_nonneg (le_of_lt (hitems i hi).1) (hitems i hi).2)
  have hsub0 : 0 ≤ b.subtotal := round2_nonneg hsum0
  have hsub_fix : round2 b.subtotal = b.subtotal := by
    unfold Budget.subtotal
    exact round2_round2 _
  have hdesc0 : 0 ≤ b.importe_descuento := by
    unfold Budget.importe_descuento
    exact round2_nonneg (mul_nonneg hsub0 (div_nonneg hd0 (by norm_num)))
  have hdesc_le : b.importe_descuento ≤ b.subtotal := by
    unfold Budget.importe_descuento
    have h1 : b.subtotal * b.descuento_porcentaje ≤ b.subtotal * 100 :=
      mul_le_mul_of_nonneg_left hd100 hsub0
    calc round2 (b.subtotal * (b.descuento_porcentaje / 100))
        ≤ round2 b.subtotal := by
          apply round2_mono
          rw [← mul_div_assoc]
          linarith
      _ = b.subtotal := hsub_fix
  have hbase0 : 0 ≤ b.base_imponible := by
    unfold Budget.base_imponible
    exact round2_nonneg (by linarith)
  have hbase_fix : round2 b.base_imponible = b.base_imponible := by
    unfold Budget.base_imponible
    exact round2_round2 _
  have h105 : (1.05 : ℚ) = 21 / 20 := by norm_num
  have hbcr_ge : b.base_imponible ≤ b.base_con_redondeo := by
    unfold Budget.base_con_redondeo
    calc b.base_imponible = round2 b.base_imponible := hbase_fix.symm
      _ ≤ round2 (b.base_imponible * 1.05) := by
          apply round2_mono
          rw [h105]
          linarith
  have hbcr0 : 0 ≤ b.base_con_redondeo := le_trans hbase0 hbcr_ge
  have hiva0 : 0 ≤ b.importe_iva := by
    unfold Budget.importe_iva
    apply round2_nonneg
    apply mul_nonneg hbcr0
    unfold Budget.iva_porcentaje
    split <;> norm_num
  have hbcr_fix : round2 b.base_con_redondeo = b.base_con_redondeo := by
    unfold Budget.base_con_redondeo
    exact round2_round2 _
  calc b.base_imponible ≤ b.base_con_redondeo := hbcr_ge
    _ = round2 b.base_con_redondeo := hbcr_fix.symm
    _ ≤ round2 (b.base_con_redondeo + b.importe_iva) := round2_mono (by linarith)
    _ = b.total := rfl

/-- Concrete budget used to instantiate the hypothesised theorems: one
25 m2 tiling line at 54.63 euros per m2 (the spec end-to-end scenario),
no discount, general VAT 21 percent, 80 m2 project at estandar quality. -/
def sampleBudget : Budget :=
  { partidas := [{ categoria := .albanileria
                   cantidad := 25
                   precio_unitario := 54.63
                   calidad := .estandar
                   es_paquete := false }]
    descuento_porcentaje := 0
    puede_iva_reducido := false
    metros_cuadrados := 80
    calidad_general := .estandar }

/-- Witness for C6: the sample budget satisfies the pydantic constraints
and its total 1735.19 dominates its taxable base 1365.75. -/
theorem c6_total_ge_base_witness :
    sampleBudget.pydanticOk ∧ sampleBudget.base_imponible ≤ sampleBudget.total :=
  ⟨by decide, c6_total_ge_base sampleBudget (by decide)⟩

/-! ## Claim C2 -/

/-- Claim C2 counterexample: an unknown partida inside a known category,
an unknown category, and an unknown package all make the catalog lookups
return the default value 0.0.  The functions are total: no NotFoundError
(nor any error type of that name) exists anywhere in the codebase, so no
lookup failure is surfaced to the caller. -/
theorem c2_unknown_lookup_counterexample :
    get_precio_partida "albanileria" "partida_inexistente" "estandar" = 0 ∧
    get_precio_partida "categoria_inexistente" "alicatado_paredes" "estandar" = 0 ∧
    get_precio_paquete "paquete_inexistente" "estandar" (some 50) = 0 := by
  decide

/-- Claim C2 amended: for every catalog lookup with an unknown key, the
lookup returns the default value 0.0 instead of raising; nothing is
surfaced to the caller. -/
theorem c2_unknown_lookup_returns_zero (categoria partida calidad : String)
    (h : lookupPartida categoria partida = none)
    (paquete calidadPaquete : String) (metros : Option ℚ)
    (hp : lookupPrecios paquete calidadPaquete = none) :
    get_precio_partida categoria partida calidad = 0 ∧
    get_precio_paquete paquete calidadPaquete metros = 0 := by
  constructor
  · unfold get_precio_partida
    rw [h]
  · unfold get_precio_paquete
    rw [hp]

/-- Witness for the amended C2 at the concrete unknown keys. -/
theorem c2_unknown_lookup_returns_zero_witness :
    get_precio_partida "albanileria" "otra_partida_inexistente" "basico" = 0 ∧
    get_precio_paquete "otro_paquete_inexistente" "premium" none = 0 :=
  c2_unknown_lookup_returns_zero "albanileria" "otra_partida_inexistente" "basico"
    (by decide) "otro_paquete_inexistente" "premium" none (by decide)

/-! ## Claim C9 -/

/-- Claim C9: the price selection used by PricingService.crear_partida,
partida_data.get(calidad, partida_data.get("estandar", 0.0)), falls back
to the estandar tier price whenever the requested tier has no entry in the
partida dict; no failure is raised.  The same expression appears in
PricingService.calcular_precio_unitario. -/
theorem c9_estandar_fallback (tiers : Tiers) (calidad : String) (precio : ℚ)
    (hmiss : tiers.lookup calidad = none)
    (hstd : tiers.lookup "estandar" = some precio) :
    precioSegunCalidad tiers calidad = precio := by
  unfold precioSegunCalidad
  rw [hmiss, hstd]
  rfl

/-- Witness for C9: a partida dict holding only an estandar entry priced
at 20 serves that price for the absent premium tier. -/
theorem c9_estandar_fallback_witness :
    precioSegunCalidad [("estandar", 20)] "premium" = 20 :=
  c9_estandar_fallback [("estandar", 20)] "premium" 20 (by decide) (by decide)

/-! ## Claim C4 -/

/-- Claim C4: every known package and quality tier is priced by exactly
one of two shapes.  A dict holding precio_m2 (flat-rate-per-area) prices
as rate times area; a dict holding precio_base, m2_referencia and
precio_m2_adicional (base-plus-overage, with the nonnegative reference
the data tables always use) prices as base plus
max(0, area - reference) times the extra rate, so any area at or below
the reference yields exactly the base price. -/
theorem c4_package_price_shapes (paquete calidad : String) (precios : Tiers)
    (h : lookupPrecios paquete calidad = some precios) (m : ℚ) :
    (∀ rate : ℚ, precios.lookup "precio_m2" = some rate →
      get_precio_paquete paquete calidad (some m) = rate * m) ∧
    (∀ base ref extra : ℚ, precios.lookup "precio_m2" = none →
      precios.lookup "precio_base" = some base →
      precios.lookup "m2_referencia" = some ref →
      precios.lookup "precio_m2_adicional" = some extra →
      0 ≤ ref →
      get_precio_paquete paquete calidad (some m) = base + max 0 (m - ref) * extra) := by
  constructor
  · intro rate hrate
    unfold get_precio_paquete
    rw [h]
    simp only [hrate, Option.getD_some]
  · intro base ref extra hflat hbase href hextra href0
    unfold get_precio_paquete
    rw [h]
    simp only [hflat, hbase, href, hextra, Option.getD_some]
    by_cases hc : m ≠ 0 ∧ ref < m
    · rw [if_pos hc]
      rw [max_eq_right (by linarith [hc.2] : (0 : ℚ) ≤ m - ref)]
    · rw [if_neg hc]
      rcases not_and_or.mp hc with hm0 | hle
      · have hm : m = 0 := not_not.mp hm0
        rw [hm]
        rw [max_eq_left (by linarith : (0 : ℚ) - ref ≤ 0)]
        ring
      · have hm : m ≤ ref := not_lt.mp hle
        rw [max_eq_left (by linarith : m - ref ≤ 0)]
        ring

/-- Witness for C4 on the real tables: bano_completo estandar at 10 m2
prices as 5500 + max(0, 10 - 5) * 500 = 8000, and
reforma_integral_vivienda estandar at 10 m2 prices as 950 * 10 = 9500. -/
theorem c4_package_price_shapes_witness :
    get_precio_paquete "bano_completo" "estandar" (some 10) =
      5500 + max 0 (10 - 5) * 500 ∧
    get_precio_paquete "reforma_integral_vivienda" "estandar" (some 10) = 950 * 10 :=
  ⟨(c4_package_price_shapes "bano_completo" "estandar"
      [("precio_base", 5500), ("m2_referencia", 5), ("precio_m2_adicional", 500)]
      (by decide) 10).2 5500 5 500 (by decide) (by decide) (by decide) (by decide)
      (by norm_num),
   (c4_package_price_shapes "reforma_integral_vivienda" "estandar"
      [("precio_m2", 950)] (by decide) 10).1 950 (by decide)⟩

/-! ## Claim C10 -/

/-- Claim C10: calling the package price lookup with the area omitted
(None) or equal to 0 returns 0.0 for the flat-rate-per-area packages and
the base price of the tier for the base-plus-overage packages; a missing
area is silently treated as zero, and no error is raised (the embedded
function, like the source one, is total). -/
theorem c10_missing_area_defaults :
    get_precio_paquete "reforma_integral_vivienda" "basico" none = 0 ∧
    get_precio_paquete "reforma_integral_vivienda" "estandar" none = 0 ∧
    get_precio_paquete "reforma_integral_vivienda" "premium" none = 0 ∧
    get_precio_paquete "reforma_integral_vivienda" "basico" (some 0) = 0 ∧
    get_precio_paquete "reforma_integral_vivienda" "estandar" (some 0) = 0 ∧
    get_precio_paquete "reforma_integral_vivienda" "premium" (some 0) = 0 ∧
    get_precio_paquete "reforma_integral_local" "basico" none = 0 ∧
    get_precio_paquete "reforma_integral_local" "estandar" none = 0 ∧
    get_precio_paquete "reforma_integral_local" "premium" none = 0 ∧
    get_precio_paquete "reforma_integral_local" "basico" (some 0) = 0 ∧
    get_precio_paquete "reforma_integral_local" "estandar" (some 0) = 0 ∧
    get_precio_paquete "reforma_integral_local" "premium" (some 0) = 0 ∧
    get_precio_paquete "bano_completo" "basico" none = 3500 ∧
    get_precio_paquete "bano_completo" "estandar" none = 5500 ∧
    get_precio_paquete "bano_completo" "premium" none = 9000 ∧
    get_precio_paquete "bano_completo" "basico" (some 0) = 3500 ∧
    get_precio_paquete "bano_completo" "estandar" (some 0) = 5500 ∧
    get_precio_paquete "bano_completo" "premium" (some 0) = 9000 ∧
    get_precio_paquete "cocina_completa" "basico" none = 6000 ∧
    get_precio_paquete "cocina_completa" "estandar" none = 10000 ∧
    get_precio_paquete "cocina_completa" "premium" none = 18000 ∧
    get_precio_paquete "cocina_completa" "basico" (some 0) = 6000 ∧
    get_precio_paquete "cocina_completa" "estandar" (some 0) = 10000 ∧
    get_precio_paquete "cocina_completa" "premium" (some 0) = 18000 := by
  decide

/-! ## Helper lemmas about table lookups -/

theorem lookup_nonneg {t : Tiers} (h : ∀ kv ∈ t, 0 ≤ kv.2) {k : String} {v : ℚ}
    (hl : t.lookup k = some v) : 0 ≤ v := by
  induction t with
  | nil => simp [List.lookup] at hl
  | cons hd tl ih =>
    obtain ⟨k2, v2⟩ := hd
    rw [List.lookup] at hl
    cases hbeq : (k == k2) with
    | true =>
      rw [hbeq] at hl
      simp only [Option.some.injEq] at hl
      subst hl
      exact h (k2, v2) (List.mem_cons_self _ _)
    | false =>
      rw [hbeq] at hl
      exact ih (fun kv hkv => h kv (List.mem_cons_of_mem _ hkv)) hl

theorem precioSegunCalidad_nonneg (t : Tiers) (h : ∀ kv ∈ t, 0 ≤ kv.2)
    (calidad : String) : 0 ≤ precioSegunCalidad t calidad := by
  unfold precioSegunCalidad
  cases hq : t.lookup calidad with
  | some p => exact lookup_nonneg h hq
  | none =>
    cases hs : t.lookup "estandar" with
    | some p => exact lookup_nonneg h hs
    | none => exact le_rfl

/-! ## Claim C3 -/

/-- Claim C3 (code bug): the individual half of the claim holds in the
code (a markup line carries round(catalog tier price * 1.15, 2), here
47.5 priced to 54.63 on the alicatado partida, and aplicar_markup leaves
an item flagged es_paquete unchanged, as the direct constructions in the
repository tests exercise), but the package half cannot hold: for every
known package, crear_partidas_paquete raises AttributeError while reading
the missing WorkCategory.PAQUETE enum member, before any package line
exists, although the specification and the repository tests that call
agregar_paquete expect a package line priced from the catalog with no
markup.  This theorem evaluates the code at the failing inputs: all four
known packages crash at every quality, while the individual path behaves
as the claim states. -/
theorem c3_package_line_crash :
    crear_partidas_paquete "bano_completo" .estandar 10 = .attributeError ∧
    crear_partidas_paquete "cocina_completa" .basico 12 = .attributeError ∧
    crear_partidas_paquete "reforma_integral_vivienda" .premium 80 = .attributeError ∧
    crear_partidas_paquete "reforma_integral_local" .estandar 80 = .attributeError ∧
    crear_partida .albanileria "alicatado_paredes" 25 .estandar true =
      .ok { categoria := .albanileria, cantidad := 25,
            precio_unitario := round2 ((47.5 : ℚ) * 1.15),
            calidad := .estandar, es_paquete := false } ∧
    ({ categoria := .albanileria, cantidad := 1, precio_unitario := 8000,
       calidad := .estandar, es_paquete := true } : BudgetItem).aplicar_markup 15 =
      { categoria := .albanileria, cantidad := 1, precio_unitario := 8000,
        calidad := .estandar, es_paquete := true } := by
  decide

/-! ## Claim C5 -/

/-- Claim C5 counterexample: assigning a discount of 150 through
PricingService.aplicar_descuento is rejected with ValueError (modelled
none), not clamped; the clamping behaviour belongs only to
BudgetService.aplicar_descuento. -/
theorem c5_discount_counterexample :
    pricing_aplicar_descuento sampleBudget 150 = none ∧
    (budget_aplicar_descuento sampleBudget 150).descuento_porcentaje = 100 := by
  decide

/-- Claim C5 amended: BudgetService.aplicar_descuento clamps every input
into [0, 100]; PricingService.aplicar_descuento instead rejects
out-of-range inputs with ValueError and stores in-range inputs unchanged;
in both cases every stored discount percentage lies within [0, 100]. -/
theorem c5_discount_clamped (b : Budget) (porcentaje : ℚ) :
    (0 ≤ (budget_aplicar_descuento b porcentaje).descuento_porcentaje ∧
      (budget_aplicar_descuento b porcentaje).descuento_porcentaje ≤ 100) ∧
    (∀ b2 : Budget, pricing_aplicar_descuento b porcentaje = some b2 →
      0 ≤ b2.descuento_porcentaje ∧ b2.descuento_porcentaje ≤ 100) := by
  constructor
  · constructor
    · exact le_min (le_max_right _ _) (by norm_num)
    · exact min_le_right _ _
  · intro b2 h
    unfold pricing_aplicar_descuento at h
    split at h
    · rename_i hrange
      simp only [Option.some.injEq] at h
      subst h
      exact hrange
    · exact absurd h (by simp)

/-- Witness for the amended C5: input 150 is clamped to a stored value
inside [0, 100] by the BudgetService path, and the stored result of the
accepted PricingService call at 50 also lies inside [0, 100]. -/
theorem c5_discount_clamped_witness :
    (0 ≤ (budget_aplicar_descuento sampleBudget 150).descuento_porcentaje ∧
      (budget_aplicar_descuento sampleBudget 150).descuento_porcentaje ≤ 100) ∧
    (0 ≤ ({ sampleBudget with descuento_porcentaje := 50 } : Budget).descuento_porcentaje ∧
      ({ sampleBudget with descuento_porcentaje := 50 } : Budget).descuento_porcentaje ≤ 100) :=
  ⟨(c5_discount_clamped sampleBudget 150).1,
   (c5_discount_clamped sampleBudget 50).2
      { sampleBudget with descuento_porcentaje := 50 } (by decide)⟩

/-! ## Claim C8 -/

/-- Claim C8 counterexample: with quantity 0 (which is not positive) and
an unknown partida, crear_partida returns None (notFound) without raising
any quantity error: the catalog lookup runs first; no InvalidQuantityError
exists in the codebase and the quantity is only checked by pydantic when
the BudgetItem is constructed, after the price is computed. -/
theorem c8_quantity_counterexample :
    crear_partida .albanileria "partida_inexistente" 0 .estandar true = .notFound := by
  decide

/-- Claim C8 amended: for a partida present in the catalog, a non-positive
quantity makes crear_partida fail with the pydantic ValidationError raised
at BudgetItem construction, after the price lookup; a strictly positive
quantity (with the nonnegative prices the table always holds) succeeds and
yields a line whose subtotal is round(quantity * unit price, 2). -/
theorem c8_quantity_validation :
    (∀ (categoria : WorkCategory) (partida : String) (cantidad : ℚ)
        (calidad : QualityLevel) (conMarkup : Bool) (tiers : Tiers),
      lookupPartida categoria.value partida = some tiers →
      cantidad ≤ 0 →
      crear_partida categoria partida cantidad calidad conMarkup = .validationError) ∧
    (∀ (categoria : WorkCategory) (partida : String) (cantidad : ℚ)
        (calidad : QualityLevel) (conMarkup : Bool) (tiers : Tiers),
      lookupPartida categoria.value partida = some tiers →
      (∀ kv ∈ tiers, 0 ≤ kv.2) →
      0 < cantidad →
      ∃ item : BudgetItem,
        crear_partida categoria partida cantidad calidad conMarkup = .ok item ∧
        item.cantidad = cantidad ∧
        item.subtotal = round2 (cantidad * item.precio_unitario)) := by
  constructor
  · intro categoria partida cantidad calidad conMarkup tiers hlook hq
    obtain ⟨cat, hcat, hpart⟩ := Option.bind_eq_some.mp hlook
    simp only [crear_partida, hcat, hpart]
    rw [if_neg]
    intro hcon
    exact absurd hcon.1 (not_lt.mpr hq)
  · intro categoria partida cantidad calidad conMarkup tiers hlook htiers hq
    obtain ⟨cat, hcat, hpart⟩ := Option.bind_eq_some.mp hlook
    simp only [crear_partida, hcat, hpart]
    have hfac : 0 ≤ (if conMarkup then (1.15 : ℚ) else 1) := by
      cases conMarkup <;> norm_num
    have hprice : 0 ≤ round2 (precioSegunCalidad tiers calidad.value *
        (if conMarkup then (1.15 : ℚ) else 1)) :=
      round2_nonneg (mul_nonneg (precioSegunCalidad_nonneg tiers htiers calidad.value) hfac)
    rw [if_pos ⟨hq, hprice⟩]
    exact ⟨_, rfl, rfl, rfl⟩

/-- Witness for the amended C8: quantity 0 on the known alicatado partida
raises the validation error; quantity 0.0001 succeeds with subtotal
round(0.0001 * 54.63, 2) = 0.01. -/
theorem c8_quantity_validation_witness :
    crear_partida .albanileria "alicatado_paredes" 0 .estandar true = .validationError ∧
    (∃ item : BudgetItem,
      crear_partida .albanileria "alicatado_paredes" (1 / 10000) .estandar true = .ok item ∧
      item.cantidad = 1 / 10000 ∧
      item.subtotal = round2 ((1 / 10000) * item.precio_unitario)) :=
  ⟨c8_quantity_validation.1 .albanileria "alicatado_paredes" 0 .estandar true
      [("basico", 30), ("estandar", 47.5), ("premium", 80)] (by decide) (by norm_num),
   c8_quantity_validation.2 .albanileria "alicatado_paredes" (1 / 10000) .estandar true
      [("basico", 30), ("estandar", 47.5), ("premium", 80)] (by decide) (by decide)
      (by norm_num)⟩

end BudgetProject
